import Mathlib

/-!
Shallow embedding of the gas-fee sponsor relayer backend.

The definitions below translate, function by function, the TypeScript
sources of the repository:

  * relayer-backend/src/services/redis.ts    (nonce cursor operations)
  * relayer-backend/src/services/relayer.ts  (relay pipeline, signature
    verification, gas price and gas estimate computation, nonce usage)
  * relayer-backend/src/services/policy.ts   (policy engine)
  * the database service (TransactionRecord, updateTransaction)

Remote calls (RPC provider, signer, database, redis) are modelled as
oracle inputs carrying the value the call would return, wrapped in
Except when the call can fail.  256-bit integers arriving as decimal
wire strings are parsed with parseBigInt, which models the JavaScript
BigInt conversion: it succeeds exactly on non-empty all-digit strings
and throws otherwise.
-/

/-- Lower-casing of an ASCII string, modelling `toLowerCase()`; written
over the character list so that it reduces definitionally. -/
def strLower (s : String) : String :=
  String.mk (s.data.map Char.toLower)

/-- Emptiness of a string (JavaScript falsiness of a string value). -/
def strIsEmpty (s : String) : Bool :=
  s.data.isEmpty

/-- Decimal-string to integer conversion modelling `BigInt(s)` on the
decimal wire strings used by the service (errors on malformed input). -/
def parseBigInt (s : String) : Except String Nat :=
  if s.data.length > 0 && s.data.all Char.isDigit then
    .ok (s.data.foldl (fun acc c => acc * 10 + (c.toNat - 48)) 0)
  else
    .error ("Cannot convert " ++ s ++ " to a BigInt")

/-- Association-list lookup mirroring `Map.get` on string keys. -/
def lookupStr {α : Type} (m : List (String × α)) (k : String) : Option α :=
  (m.find? (fun p => p.1 == k)).map Prod.snd

/-- Wire-format meta-transaction request (relayer.ts, MetaTransactionRequest).
The TypeScript fields `from` and `to` are rendered `fromAddr` and `toAddr`;
numeric fields stay the decimal strings they are on the wire. -/
structure MetaTransactionRequest where
  fromAddr : String
  toAddr : String
  value : String
  gas : String
  nonce : String
  data : String
  signature : String
  network : String
  tokenAddress : Option String
  tokenType : Option String
  amount : Option String
  tokenId : Option String
deriving DecidableEq

/-- Per-network contract addresses (config.blockchain.networks[n].contracts). -/
structure NetworkContracts where
  forwarder : String
deriving DecidableEq

/-- Per-network configuration entry (config.blockchain.networks). -/
structure NetworkConfig where
  name : String
  chainId : Nat
  contracts : NetworkContracts
deriving DecidableEq

/-- Relayer-level configuration (config.relayer).  `gasMultiplier100` is
`Math.floor(config.relayer.gasMultiplier * 100)` as used in
getOptimalGasPrice; the gas and value ceilings are the env strings. -/
structure RelayerConfig where
  maxGasPrice : String
  maxGasLimit : String
  gasMultiplier100 : Nat
  maxValuePerTransaction : String
  flashbotsEnabled : Bool
deriving DecidableEq

/- ------------------------------------------------------------------ -/
/- Nonce cursor operations (redis.ts and relayer.ts)                   -/
/- ------------------------------------------------------------------ -/

/-- redis.ts RedisService.getNextNonce: `INCR` the nonce key (an absent
key counts as 0) and return the incremented value minus one; the key is
left at the incremented value. -/
def RedisService.getNextNonce (cursor : Option Nat) : Nat × Option Nat :=
  let incremented := cursor.getD 0 + 1
  (incremented - 1, some incremented)

/-- redis.ts RedisService.setNonce: `SET` the nonce key to the given value. -/
def RedisService.setNonce (nonce : Nat) : Option Nat :=
  some nonce

/-- redis.ts RedisService.getCurrentNonce: `GET` the nonce key. -/
def RedisService.getCurrentNonce (cursor : Option Nat) : Option Nat :=
  cursor

/-- relayer.ts RelayerService.getNextNonce: if a cached cursor exists,
increment it through redis and return the previous value; otherwise fetch
the on-chain pending transaction count, store it as the cursor, and
return it.  Returns the allocated nonce and the new cursor state. -/
def RelayerService.getNextNonce (onChainNonce : Nat) (cursor : Option Nat) :
    Nat × Option Nat :=
  match RedisService.getCurrentNonce cursor with
  | some _ => RedisService.getNextNonce cursor
  | none =>
    let cursor1 := RedisService.setNonce onChainNonce
    (onChainNonce, cursor1)

/-- Run `n` successive nonce acquisitions against a fixed on-chain pending
count, threading the cursor, and collect the allocated numbers. -/
def allocateNonces (onChainNonce : Nat) : Nat → Option Nat → List Nat
  | 0, _ => []
  | n + 1, cursor =>
    let step := RelayerService.getNextNonce onChainNonce cursor
    step.1 :: allocateNonces onChainNonce n step.2

/- ------------------------------------------------------------------ -/
/- Policy engine (policy.ts)                                           -/
/- ------------------------------------------------------------------ -/

/-- The redis sorted sets read by the policy engine, keyed as
`tx_count:<network>:<address>`, each holding the member scores
(millisecond timestamps).  `failing` models the redis client rejecting
its commands. -/
structure RedisCounters where
  txCount : List (String × List Nat)
  failing : Bool
deriving DecidableEq

/-- policy.ts PolicyEngine.getTransactionCount: trim the sorted set to
scores strictly above `now - timeWindowMs` and return its cardinality;
on a redis error, catch and return 0. -/
def getTransactionCount (client : RedisCounters) (address network : String)
    (timeWindowMs now : Nat) : Nat :=
  if client.failing then 0
  else
    let key := "tx_count:" ++ network ++ ":" ++ address
    let windowStart := now - timeWindowMs
    let entries := (lookupStr client.txCount key).getD []
    (entries.filter (fun t => windowStart < t)).length

/-- policy.ts PolicyEngine.getTransactionValue: the source body is a
placeholder that returns 0 for every address, network and window. -/
def getTransactionValue (_address _network : String) (_timeWindowMs : Nat) : Nat :=
  0

/-- policy.ts PolicyEngine.getTokenTransactionAmount: the source body is a
placeholder that returns 0 for every key and window. -/
def getTokenTransactionAmount (_address _tokenAddress _network : String)
    (_timeWindowMs : Nat) : Nat :=
  0

/-- policy.ts PolicyResult. -/
structure PolicyResult where
  allowed : Bool
  reason : Option String
deriving DecidableEq

/-- policy.ts AllowlistRule. -/
structure AllowlistRule where
  addresses : List String
deriving DecidableEq

/-- policy.ts QuotaRule; the per-hour and per-day transaction limits are
JavaScript numbers, the value limits are decimal strings. -/
structure QuotaRule where
  maxTransactionsPerHour : Nat
  maxTransactionsPerDay : Nat
  maxValuePerTransaction : String
  maxValuePerHour : String
  maxValuePerDay : String
deriving DecidableEq

/-- policy.ts GasLimitRule. -/
structure GasLimitRule where
  maxGasLimit : String
  maxGasPrice : String
deriving DecidableEq

/-- policy.ts TokenLimitRule; the per-token limit objects become
association lists keyed by token address. -/
structure TokenLimitRule where
  allowedTokens : List String
  maxAmountPerTransaction : List (String × String)
  maxAmountPerHour : List (String × String)
  maxAmountPerDay : List (String × String)
deriving DecidableEq

/-- The four in-memory rule maps of PolicyEngine, keyed by target
("*", a network name, or an address). -/
structure PolicyRules where
  allowlistRules : List (String × AllowlistRule)
  quotaRules : List (String × QuotaRule)
  gasLimitRules : List (String × GasLimitRule)
  tokenLimitRules : List (String × TokenLimitRule)
deriving DecidableEq

/-- One hour in milliseconds, as in policy.ts. -/
def oneHourMs : Nat := 60 * 60 * 1000

/-- One day in milliseconds, as in policy.ts. -/
def oneDayMs : Nat := 24 * oneHourMs

/-- policy.ts PolicyEngine.checkAllowlist: the global rule (target "*")
and then the network rule must list the sender (case-insensitive). -/
def checkAllowlist (rules : PolicyRules) (request : MetaTransactionRequest) :
    PolicyResult :=
  let globalOk :=
    match lookupStr rules.allowlistRules "*" with
    | some rule => rule.addresses.any (fun a => strLower a == strLower request.fromAddr)
    | none => true
  if !globalOk then
    { allowed := false, reason := some "Address not in global allowlist" }
  else
    let networkOk :=
      match lookupStr rules.allowlistRules request.network with
      | some rule => rule.addresses.any (fun a => strLower a == strLower request.fromAddr)
      | none => true
    if !networkOk then
      { allowed := false,
        reason := some ("Address not in " ++ request.network ++ " allowlist") }
    else
      { allowed := true, reason := none }

/-- policy.ts PolicyEngine.checkAddressQuota: count checks against the
counter cache, then per-transaction / hourly / daily value checks; the
hour and day value sums come from the placeholder getTransactionValue.
BigInt conversions of malformed strings propagate as errors. -/
def checkAddressQuota (client : RedisCounters) (now : Nat) (address : String)
    (request : MetaTransactionRequest) (rule : QuotaRule) :
    Except String PolicyResult :=
  let hourlyTxCount := getTransactionCount client address request.network oneHourMs now
  if hourlyTxCount ≥ rule.maxTransactionsPerHour then
    .ok { allowed := false, reason := some "Hourly transaction limit exceeded" }
  else
  let dailyTxCount := getTransactionCount client address request.network oneDayMs now
  if dailyTxCount ≥ rule.maxTransactionsPerDay then
    .ok { allowed := false, reason := some "Daily transaction limit exceeded" }
  else
  match parseBigInt request.value with
  | .error e => .error e
  | .ok txValue =>
  match parseBigInt rule.maxValuePerTransaction with
  | .error e => .error e
  | .ok maxTxValue =>
  if txValue > maxTxValue then
    .ok { allowed := false, reason := some "Transaction value exceeds limit" }
  else
  let hourlyValue := getTransactionValue address request.network oneHourMs
  match parseBigInt rule.maxValuePerHour with
  | .error e => .error e
  | .ok maxHourlyValue =>
  if hourlyValue + txValue > maxHourlyValue then
    .ok { allowed := false, reason := some "Hourly value limit would be exceeded" }
  else
  let dailyValue := getTransactionValue address request.network oneDayMs
  match parseBigInt rule.maxValuePerDay with
  | .error e => .error e
  | .ok maxDailyValue =>
  if dailyValue + txValue > maxDailyValue then
    .ok { allowed := false, reason := some "Daily value limit would be exceeded" }
  else
    .ok { allowed := true, reason := none }

/-- One target lookup of policy.ts checkQuotas: apply the quota rule for
`target` when installed, otherwise allow. -/
def quotaRuleStep (rules : PolicyRules) (client : RedisCounters) (now : Nat)
    (request : MetaTransactionRequest) (target : String) :
    Except String PolicyResult :=
  match lookupStr rules.quotaRules target with
  | some rule => checkAddressQuota client now (strLower request.fromAddr) request rule
  | none => .ok { allowed := true, reason := none }

/-- policy.ts PolicyEngine.checkQuotas: the global quota rule and then the
address-specific quota rule. -/
def checkQuotas (rules : PolicyRules) (client : RedisCounters) (now : Nat)
    (request : MetaTransactionRequest) : Except String PolicyResult :=
  match quotaRuleStep rules client now request "*" with
  | .error e => .error e
  | .ok globalRes =>
  if !globalRes.allowed then
    .ok globalRes
  else
  match quotaRuleStep rules client now request (strLower request.fromAddr) with
  | .error e => .error e
  | .ok addressRes =>
  if !addressRes.allowed then
    .ok addressRes
  else
    .ok { allowed := true, reason := none }

/-- One gas-cap rule application inside policy.ts checkGasLimits: compare
the declared request gas with the rule maxGasLimit; `some rejection` is
an exceeded cap, `none` lets the next rule run. -/
def checkGasLimitRule (request : MetaTransactionRequest) (rule : GasLimitRule)
    (reason : String) : Except String (Option PolicyResult) :=
  match parseBigInt request.gas with
  | .error e => .error e
  | .ok gasLimit =>
  match parseBigInt rule.maxGasLimit with
  | .error e => .error e
  | .ok maxGasLimit =>
  if gasLimit > maxGasLimit then
    .ok (some { allowed := false, reason := some reason })
  else
    .ok none

/-- One target lookup of policy.ts checkGasLimits: apply the gas-cap rule
for `target` when installed. -/
def gasRuleStep (rules : PolicyRules) (request : MetaTransactionRequest)
    (target reason : String) : Except String (Option PolicyResult) :=
  match lookupStr rules.gasLimitRules target with
  | some rule => checkGasLimitRule request rule reason
  | none => .ok none

/-- policy.ts PolicyEngine.checkGasLimits: the declared gas of the request
against the global rule and then the network rule. -/
def checkGasLimits (rules : PolicyRules) (request : MetaTransactionRequest) :
    Except String PolicyResult :=
  match gasRuleStep rules request "*" "Gas limit exceeds maximum allowed" with
  | .error e => .error e
  | .ok (some rejection) => .ok rejection
  | .ok none =>
  match gasRuleStep rules request request.network
      ("Gas limit exceeds " ++ request.network ++ " maximum") with
  | .error e => .error e
  | .ok (some rejection) => .ok rejection
  | .ok none => .ok { allowed := true, reason := none }

/-- One token-cap comparison inside policy.ts checkTokenAmountLimits: a
missing or empty limit entry skips its check (JavaScript truthiness of
`rule.maxAmountPer...[tokenAddress]`); otherwise the prior window amount
plus the request amount is compared with the parsed limit. -/
def tokenCapStep (priorAmount txAmount : Nat) (limitEntry : Option String)
    (reason : String) : Except String (Option PolicyResult) :=
  match limitEntry with
  | some s =>
    if strIsEmpty s then .ok none
    else
      match parseBigInt s with
      | .error e => .error e
      | .ok maxAmount =>
        if priorAmount + txAmount > maxAmount then
          .ok (some { allowed := false, reason := some reason })
        else .ok none
  | none => .ok none

/-- policy.ts PolicyEngine.checkTokenAmountLimits: per-transaction, hourly
and daily token amount caps for one token, in that order; the window sums
come from the placeholder getTokenTransactionAmount. -/
def checkTokenAmountLimits (address tokenAddress amount network : String)
    (rule : TokenLimitRule) : Except String PolicyResult :=
  match parseBigInt amount with
  | .error e => .error e
  | .ok txAmount =>
  match tokenCapStep 0 txAmount (lookupStr rule.maxAmountPerTransaction tokenAddress)
      "Token amount exceeds per-transaction limit" with
  | .error e => .error e
  | .ok (some rejection) => .ok rejection
  | .ok none =>
  let hourlyAmount := getTokenTransactionAmount address tokenAddress network oneHourMs
  match tokenCapStep hourlyAmount txAmount
      (lookupStr rule.maxAmountPerHour tokenAddress)
      "Token hourly limit would be exceeded" with
  | .error e => .error e
  | .ok (some rejection) => .ok rejection
  | .ok none =>
  let dailyAmount := getTokenTransactionAmount address tokenAddress network oneDayMs
  match tokenCapStep dailyAmount txAmount
      (lookupStr rule.maxAmountPerDay tokenAddress)
      "Token daily limit would be exceeded" with
  | .error e => .error e
  | .ok (some rejection) => .ok rejection
  | .ok none => .ok { allowed := true, reason := none }

/-- policy.ts PolicyEngine.checkTokenLimits: requests without token fields
pass; otherwise the global token rule enforces allowed-token membership
(when the allowed list is non-empty) and the amount caps. -/
def checkTokenLimits (rules : PolicyRules) (request : MetaTransactionRequest) :
    Except String PolicyResult :=
  match request.tokenAddress, request.amount with
  | some ta, some am =>
    if strIsEmpty ta || strIsEmpty am then
      .ok { allowed := true, reason := none }
    else
      let tokenAddress := strLower ta
      match lookupStr rules.tokenLimitRules "*" with
      | some rule =>
        if rule.allowedTokens.length > 0 &&
            !(rule.allowedTokens.any (fun a => strLower a == tokenAddress)) then
          .ok { allowed := false, reason := some "Token not in allowed list" }
        else
          match checkTokenAmountLimits request.fromAddr tokenAddress am
              request.network rule with
          | .error e => .error e
          | .ok amountRes =>
            if !amountRes.allowed then .ok amountRes
            else .ok { allowed := true, reason := none }
      | none => .ok { allowed := true, reason := none }
  | _, _ => .ok { allowed := true, reason := none }

/-- The try-block of policy.ts PolicyEngine.checkPolicies: allowlist, then
quotas, then gas limits, then token limits; the first rejection is
returned and later checks are not consulted. -/
def checkPoliciesE (rules : PolicyRules) (client : RedisCounters) (now : Nat)
    (request : MetaTransactionRequest) : Except String PolicyResult :=
  let allowlistResult := checkAllowlist rules request
  if !allowlistResult.allowed then
    .ok allowlistResult
  else
  match checkQuotas rules client now request with
  | .error e => .error e
  | .ok quotaResult =>
  if !quotaResult.allowed then
    .ok quotaResult
  else
  match checkGasLimits rules request with
  | .error e => .error e
  | .ok gasLimitResult =>
  if !gasLimitResult.allowed then
    .ok gasLimitResult
  else
  match checkTokenLimits rules request with
  | .error e => .error e
  | .ok tokenLimitResult =>
  if !tokenLimitResult.allowed then
    .ok tokenLimitResult
  else
    .ok { allowed := true, reason := none }

/-- policy.ts PolicyEngine.checkPolicies: the try-block above with its
catch-all, which turns any thrown error into a rejection with reason
"Policy check failed". -/
def checkPolicies (rules : PolicyRules) (client : RedisCounters) (now : Nat)
    (request : MetaTransactionRequest) : PolicyResult :=
  match checkPoliciesE rules client now request with
  | .ok result => result
  | .error _ => { allowed := false, reason := some "Policy check failed" }

/-- First rejected result in a list of policy results, or an allow when
none is rejected. -/
def firstRejection (results : List PolicyResult) : PolicyResult :=
  match results.find? (fun r => !r.allowed) with
  | some r => r
  | none => { allowed := true, reason := none }

/- ------------------------------------------------------------------ -/
/- Signature verification (relayer.ts)                                 -/
/- ------------------------------------------------------------------ -/

/-- EIP-712 domain object as built in verifyMetaTransactionSignature. -/
structure EIP712Domain where
  name : String
  version : String
  chainId : Nat
  verifyingContract : String
deriving DecidableEq

/-- The ForwardRequest value object signed by the user, over the field
tuple (from, to, value, gas, nonce, data). -/
structure ForwardRequestMessage where
  fromAddr : String
  toAddr : String
  value : String
  gas : String
  nonce : String
  data : String
deriving DecidableEq

/-- Oracle modelling ethers.verifyTypedData: from a domain, a message and
a signature it returns the recovered signer address. -/
def RecoverOracle : Type :=
  EIP712Domain → ForwardRequestMessage → String → String

/-- The value object passed to ethers.verifyTypedData in
verifyMetaTransactionSignature. -/
def forwardRequestMessage (request : MetaTransactionRequest) : ForwardRequestMessage :=
  { fromAddr := request.fromAddr, toAddr := request.toAddr,
    value := request.value, gas := request.gas,
    nonce := request.nonce, data := request.data }

/-- The EIP-712 domain built in verifyMetaTransactionSignature for a
network: name "MinimalForwarder", version "0.0.1", the network chain id
and the network forwarder contract address. -/
def metaTxDomain (networkConfig : NetworkConfig) : EIP712Domain :=
  { name := "MinimalForwarder", version := "0.0.1",
    chainId := networkConfig.chainId,
    verifyingContract := networkConfig.contracts.forwarder }

/-- relayer.ts RelayerService.verifyMetaTransactionSignature: build the
domain and value object, recover the signer, and accept exactly when the
recovered address equals the request sender case-insensitively.  Both a
missing network configuration and a recovery mismatch are caught and
rethrown as the one invalid-signature error. -/
def verifyMetaTransactionSignature (networks : List (String × NetworkConfig))
    (recover : RecoverOracle) (request : MetaTransactionRequest) :
    Except String Unit :=
  match lookupStr networks request.network with
  | none => .error "Invalid meta-transaction signature"
  | some networkConfig =>
    let domain := metaTxDomain networkConfig
    let recovered := recover domain (forwardRequestMessage request) request.signature
    if strLower recovered == strLower request.fromAddr then .ok ()
    else .error "Invalid meta-transaction signature"

/- ------------------------------------------------------------------ -/
/- Gas price, gas estimate, validation, simulation (relayer.ts)        -/
/- ------------------------------------------------------------------ -/

/-- relayer.ts RelayerService.getOptimalGasPrice: take the provider fee
suggestion (null coalesced to 0), multiply by floor(gasMultiplier*100)
over 100, and clamp down to the configured maxGasPrice; any error in the
try-block (a failed fee query, a malformed maxGasPrice) falls back to
20 gwei.  The fee oracle is `Except Unit (Option Nat)`: the error side is
a getFeeData failure, the Option is the nullable gasPrice field. -/
def getOptimalGasPrice (cfg : RelayerConfig)
    (feeDataGasPrice : Except Unit (Option Nat)) : Nat :=
  match feeDataGasPrice with
  | .error _ => 20000000000
  | .ok fee =>
    match parseBigInt cfg.maxGasPrice with
    | .error _ => 20000000000
    | .ok maxGasPrice =>
      let gasPrice := (fee.getD 0) * cfg.gasMultiplier100 / 100
      if gasPrice > maxGasPrice then maxGasPrice else gasPrice

/-- relayer.ts RelayerService.estimateGas: the provider estimate plus a
20 percent buffer; on an estimation error, fall back to the declared
request gas (whose BigInt conversion can itself throw). -/
def estimateGas (request : MetaTransactionRequest)
    (gasEstimate : Except Unit Nat) : Except String Nat :=
  match gasEstimate with
  | .ok e => .ok (e * 120 / 100)
  | .error _ => parseBigInt request.gas

/-- Hex digit test used by the address shape check. -/
def isHexDigitChar (c : Char) : Bool :=
  c.isDigit || (97 ≤ c.toNat && c.toNat ≤ 102) || (65 ≤ c.toNat && c.toNat ≤ 70)

/-- Shape of ethers.isAddress: 0x followed by 40 hex digits. -/
def isAddress (s : String) : Bool :=
  s.data.length == 42 && List.isPrefixOf "0x".data s.data &&
    ((s.data.drop 2).all isHexDigitChar)

/-- relayer.ts RelayerService.validateRequest: address shapes, signature
presence, network membership, and the hard gas and value ceilings. -/
def validateRequest (cfg : RelayerConfig)
    (networks : List (String × NetworkConfig))
    (request : MetaTransactionRequest) : Except String Unit := do
  if !isAddress request.fromAddr then
    throw "Invalid from address"
  if !isAddress request.toAddr then
    throw "Invalid to address"
  if strIsEmpty request.signature then
    throw "Signature is required"
  if (lookupStr networks request.network).isNone then
    throw ("Unsupported network: " ++ request.network)
  let gasLimit ← parseBigInt request.gas
  let maxGasLimit ← parseBigInt cfg.maxGasLimit
  if gasLimit > maxGasLimit then
    throw "Gas limit too high"
  let value ← parseBigInt request.value
  let maxValue ← parseBigInt cfg.maxValuePerTransaction
  if value > maxValue then
    throw "Transaction value too high"

/-- relayer.ts RelayerService.simulateTransaction: a provider call oracle;
a revert is rethrown as the would-revert error. -/
def simulateTransaction (simulateOk : Bool) : Except String Unit :=
  if simulateOk then .ok ()
  else .error "Transaction simulation failed - transaction would revert"

/- ------------------------------------------------------------------ -/
/- Store (database service)                                            -/
/- ------------------------------------------------------------------ -/

/-- Transaction status domain of the database TransactionRecord type:
the source declares exactly pending, confirmed and failed. -/
inductive TxStatus
  | pending
  | confirmed
  | failed
deriving DecidableEq

/-- Database TransactionRecord (database service). -/
structure TransactionRecord where
  tx_hash : String
  from_address : String
  to_address : String
  network : String
  status : TxStatus
  gas_used : Option String
  gas_price : Option String
  block_number : Option Nat
  relayer_address : Option String
  token_address : Option String
  token_type : Option String
  amount : Option String
  token_id : Option String
deriving DecidableEq

/-- A partial update object passed to DatabaseService.updateTransaction;
a `some` field is a column present in the SET clause. -/
structure TransactionUpdates where
  status : Option TxStatus
  gas_used : Option String
  block_number : Option Nat
deriving DecidableEq

/-- Apply the SET clause of updateTransaction to one row: every column
present in the update object is overwritten, the others are kept. -/
def applyUpdates (updates : TransactionUpdates) (record : TransactionRecord) :
    TransactionRecord :=
  { record with
    status := updates.status.getD record.status,
    gas_used :=
      match updates.gas_used with
      | some g => some g
      | none => record.gas_used,
    block_number :=
      match updates.block_number with
      | some b => some b
      | none => record.block_number }

/-- DatabaseService.updateTransaction: `UPDATE transactions SET ... WHERE
tx_hash = $1` — the update is applied to every row whose tx_hash matches,
with no condition on the current status. -/
def updateTransaction (db : List TransactionRecord) (txHash : String)
    (updates : TransactionUpdates) : List TransactionRecord :=
  db.map (fun record =>
    if record.tx_hash == txHash then applyUpdates updates record else record)

/- ------------------------------------------------------------------ -/
/- Relay pipeline (relayer.ts RelayerService.relayTransaction)         -/
/- ------------------------------------------------------------------ -/

/-- Observable steps of one relayTransaction run, in the order the source
issues them; a trace records which calls were issued before the run
returned. -/
inductive PipelineEv
  | validate
  | policyCheck
  | verifySig
  | simulate
  | feeQuery
  | gasEstimateQuery
  | nonceAcquire
  | flashbotsSend
  | signTx
  | broadcastTx
  | waitReceipt
  | persistRecord
  | trackPending
  | metricsRecord
deriving DecidableEq

instance exceptDecEq {ε α : Type} [DecidableEq ε] [DecidableEq α] :
    DecidableEq (Except ε α) := fun a b =>
  match a, b with
  | .error e1, .error e2 =>
    if h : e1 = e2 then .isTrue (by rw [h])
    else .isFalse (fun hc => h (by cases hc; rfl))
  | .ok a1, .ok a2 =>
    if h : a1 = a2 then .isTrue (by rw [h])
    else .isFalse (fun hc => h (by cases hc; rfl))
  | .error _, .ok _ => .isFalse (fun hc => by cases hc)
  | .ok _, .error _ => .isFalse (fun hc => by cases hc)

/-- Oracle bundle for the remote calls one relayTransaction run makes:
provider simulation, fee data, gas estimate, pending count, signer
address, flashbots bundle submission, transaction signing, broadcast,
receipt wait, database insert and redis pending-tx tracking. -/
structure ChainOracle where
  simulateOk : Bool
  feeDataGasPrice : Except Unit (Option Nat)
  gasEstimate : Except Unit Nat
  transactionCountPending : Nat
  relayerAddress : String
  flashbotsResult : Except String String
  signResult : Except String String
  broadcastResult : Except String String
  waitResult : Except String (Option Nat)
  persistResult : Except String Unit
  trackResult : Except String Unit
deriving DecidableEq

/-- Mutable backend state touched by one run: the redis nonce cursor for
the (relayer address, network) key, the policy counter sorted sets, the
transactions table, the redis pending_tx keys and the Prometheus
transaction metrics. -/
structure BackendState where
  nonceCursor : Option Nat
  counters : RedisCounters
  transactions : List TransactionRecord
  pendingTx : List String
  metricsTx : List (String × String)
deriving DecidableEq

/-- relayer.ts RelayResult. -/
structure RelayResult where
  success : Bool
  txHash : Option String
  error : Option String
  gasUsed : Option String
  gasPrice : Option String
deriving DecidableEq

/-- The RelayResult built by the catch block of relayTransaction. -/
def failResult (msg : String) : RelayResult :=
  { success := false, txHash := none, error := some msg,
    gasUsed := none, gasPrice := none }

/-- metricsService.recordTransaction: append one (network, status) sample. -/
def recordTxMetrics (st : BackendState) (network status : String) : BackendState :=
  { st with metricsTx := st.metricsTx ++ [(network, status)] }

/-- The TransactionRecord literal persisted by relayTransaction: a pending
record carrying the gas price used and the relayer address. -/
def pendingRecordOf (request : MetaTransactionRequest) (txHash : String)
    (gasPrice : Nat) (relayerAddress : String) : TransactionRecord :=
  { tx_hash := txHash, from_address := request.fromAddr,
    to_address := request.toAddr, network := request.network,
    status := TxStatus.pending, gas_used := none,
    gas_price := some (toString gasPrice), block_number := none,
    relayer_address := some relayerAddress,
    token_address := request.tokenAddress, token_type := request.tokenType,
    amount := request.amount, token_id := request.tokenId }

/-- Tail of relayTransaction shared by the flashbots and the plain
broadcast path: persist the pending record, track the pending hash in
redis, record metrics and build the success result.  Failures of the
database insert or of the redis tracking are caught by the outer catch
block and surface as a failed RelayResult; the broadcast they follow is
not undone and the nonce cursor is not rolled back. -/
def finishRelay (request : MetaTransactionRequest) (st1 : BackendState)
    (chain : ChainOracle) (txHash : String) (gasUsed : Option Nat)
    (gasPrice : Nat) (tracePrefix : List PipelineEv) :
    RelayResult × BackendState × List PipelineEv :=
  match chain.persistResult with
  | .error e =>
    (failResult e, recordTxMetrics st1 request.network "failed",
      tracePrefix ++ [PipelineEv.persistRecord, PipelineEv.metricsRecord])
  | .ok _ =>
    let st2 := { st1 with
      transactions := st1.transactions ++
        [pendingRecordOf request txHash gasPrice chain.relayerAddress] }
    match chain.trackResult with
    | .error e =>
      (failResult e, recordTxMetrics st2 request.network "failed",
        tracePrefix ++ [PipelineEv.persistRecord, PipelineEv.trackPending,
          PipelineEv.metricsRecord])
    | .ok _ =>
      let st3 := recordTxMetrics
        { st2 with pendingTx := st2.pendingTx ++ [txHash] }
        request.network "success"
      ({ success := true, txHash := some txHash,
         error := none, gasUsed := gasUsed.map toString,
         gasPrice := some (toString gasPrice) }, st3,
        tracePrefix ++ [PipelineEv.persistRecord, PipelineEv.trackPending,
          PipelineEv.metricsRecord])

/-- relayer.ts RelayerService.relayTransaction, one run: validate, check
policies, look up the network, verify the signature, simulate, compute
the gas price and the gas limit, acquire the nonce, then either hand the
transaction to flashbots (on ethereum with flashbots enabled) or sign,
broadcast and await the receipt, and finally persist the pending record
and track it.  Every thrown error is caught, recorded in the failure
metrics, and returned as a failed RelayResult. -/
def relayTransaction (cfg : RelayerConfig)
    (networks : List (String × NetworkConfig)) (rules : PolicyRules)
    (recover : RecoverOracle) (now : Nat) (chain : ChainOracle)
    (st : BackendState) (request : MetaTransactionRequest) :
    RelayResult × BackendState × List PipelineEv :=
  match validateRequest cfg networks request with
  | .error e =>
    (failResult e, recordTxMetrics st request.network "failed",
      [PipelineEv.validate, PipelineEv.metricsRecord])
  | .ok _ =>
  let policyResult := checkPolicies rules st.counters now request
  if !policyResult.allowed then
    (failResult ("Policy violation: " ++ policyResult.reason.getD "undefined"),
      recordTxMetrics st request.network "failed",
      [PipelineEv.validate, PipelineEv.policyCheck, PipelineEv.metricsRecord])
  else
  match lookupStr networks request.network with
  | none =>
    (failResult ("Unsupported network: " ++ request.network),
      recordTxMetrics st request.network "failed",
      [PipelineEv.validate, PipelineEv.policyCheck, PipelineEv.metricsRecord])
  | some _networkConfig =>
  match verifyMetaTransactionSignature networks recover request with
  | .error e =>
    (failResult e, recordTxMetrics st request.network "failed",
      [PipelineEv.validate, PipelineEv.policyCheck, PipelineEv.verifySig,
        PipelineEv.metricsRecord])
  | .ok _ =>
  match simulateTransaction chain.simulateOk with
  | .error e =>
    (failResult e, recordTxMetrics st request.network "failed",
      [PipelineEv.validate, PipelineEv.policyCheck, PipelineEv.verifySig,
        PipelineEv.simulate, PipelineEv.metricsRecord])
  | .ok _ =>
  let gasPrice := getOptimalGasPrice cfg chain.feeDataGasPrice
  match estimateGas request chain.gasEstimate with
  | .error e =>
    (failResult e, recordTxMetrics st request.network "failed",
      [PipelineEv.validate, PipelineEv.policyCheck, PipelineEv.verifySig,
        PipelineEv.simulate, PipelineEv.feeQuery, PipelineEv.gasEstimateQuery,
        PipelineEv.metricsRecord])
  | .ok _gasLimit =>
  let nonceStep := RelayerService.getNextNonce chain.transactionCountPending st.nonceCursor
  let st1 := { st with nonceCursor := nonceStep.2 }
  let tracePrefix :=
    [PipelineEv.validate, PipelineEv.policyCheck, PipelineEv.verifySig,
      PipelineEv.simulate, PipelineEv.feeQuery, PipelineEv.gasEstimateQuery,
      PipelineEv.nonceAcquire]
  if cfg.flashbotsEnabled && request.network == "ethereum" then
    match chain.flashbotsResult with
    | .error e =>
      (failResult e, recordTxMetrics st1 request.network "failed",
        tracePrefix ++ [PipelineEv.flashbotsSend, PipelineEv.metricsRecord])
    | .ok txHash =>
      finishRelay request st1 chain txHash none gasPrice
        (tracePrefix ++ [PipelineEv.flashbotsSend])
  else
    match chain.signResult with
    | .error e =>
      (failResult e, recordTxMetrics st1 request.network "failed",
        tracePrefix ++ [PipelineEv.signTx, PipelineEv.metricsRecord])
    | .ok _signedTx =>
    match chain.broadcastResult with
    | .error e =>
      (failResult e, recordTxMetrics st1 request.network "failed",
        tracePrefix ++ [PipelineEv.signTx, PipelineEv.broadcastTx,
          PipelineEv.metricsRecord])
    | .ok txHash =>
    match chain.waitResult with
    | .error e =>
      (failResult e, recordTxMetrics st1 request.network "failed",
        tracePrefix ++ [PipelineEv.signTx, PipelineEv.broadcastTx,
          PipelineEv.waitReceipt, PipelineEv.metricsRecord])
    | .ok gasUsed =>
      finishRelay request st1 chain txHash gasUsed gasPrice
        (tracePrefix ++ [PipelineEv.signTx, PipelineEv.broadcastTx,
          PipelineEv.waitReceipt])

/- ------------------------------------------------------------------ -/
/- Spec-modelled quota projection (C7 window sums, section 4.4)        -/
/- ------------------------------------------------------------------ -/

/-- Modelled from the spec: the quota evaluation of section 4.4 obtains
the transaction count and value sum for the sender over the last hour and
day from the counter cache, adds the request contribution hypothetically,
and admits only when no projected figure exceeds its limit.  The source
reads its value sums from a placeholder that returns zero instead of the
counter cache; this definition follows the spec wording and is compared
against the source checkAddressQuota. -/
def quotaProjectionAllows (hourlyCount dailyCount hourlyValueSum dailyValueSum
    txValue maxTxPerHour maxTxPerDay maxValuePerTx maxValuePerHourLimit
    maxValuePerDayLimit : Nat) : Bool :=
  decide (hourlyCount + 1 ≤ maxTxPerHour) &&
  decide (dailyCount + 1 ≤ maxTxPerDay) &&
  decide (txValue ≤ maxValuePerTx) &&
  decide (hourlyValueSum + txValue ≤ maxValuePerHourLimit) &&
  decide (dailyValueSum + txValue ≤ maxValuePerDayLimit)

/- ------------------------------------------------------------------ -/
/- Concrete fixtures used by witnesses and counterexamples             -/
/- ------------------------------------------------------------------ -/

/-- A lower-case sender address of valid shape. -/
def addrA : String := "0xaaaaaaaaaaaaaaaaaaaaaaaaaaaaaaaaaaaaaaaa"

/-- A lower-case target address of valid shape. -/
def addrB : String := "0xbbbbbbbbbbbbbbbbbbbbbbbbbbbbbbbbbbbbbbbb"

/-- The relayer signing address. -/
def addrRelayer : String := "0xcccccccccccccccccccccccccccccccccccccccc"

/-- The localhost network entry of config.blockchain.networks. -/
def localhostConfig : NetworkConfig :=
  { name := "localhost", chainId := 31337,
    contracts := { forwarder := "0xdddddddddddddddddddddddddddddddddddddddd" } }

/-- A one-network deployment map. -/
def networksFix : List (String × NetworkConfig) := [("localhost", localhostConfig)]

/-- The default relayer configuration values of config.ts. -/
def cfgFix : RelayerConfig :=
  { maxGasPrice := "100000000000", maxGasLimit := "500000", gasMultiplier100 := 120,
    maxValuePerTransaction := "1000000000000000000", flashbotsEnabled := false }

/-- No policy rules installed. -/
def rulesEmpty : PolicyRules :=
  { allowlistRules := [], quotaRules := [], gasLimitRules := [], tokenLimitRules := [] }

/-- Healthy counter cache with no recorded samples. -/
def countersFix : RedisCounters := { txCount := [], failing := false }

/-- Recovery oracle of a signature produced by the holder of addrA. -/
def recoverA : RecoverOracle := fun _ _ _ => addrA

/-- A well-formed request from addrA to addrB on localhost. -/
def requestFix : MetaTransactionRequest :=
  { fromAddr := addrA, toAddr := addrB, value := "0", gas := "100000", nonce := "0",
    data := "0x", signature := "0xsig", network := "localhost",
    tokenAddress := none, tokenType := none, amount := none, tokenId := none }

/-- Oracles for a fully healthy run: simulation passes, the fee
suggestion is 10 gwei, the estimate 50000, the relayer has 7 pending
transactions on chain, and every remote call succeeds. -/
def chainFix : ChainOracle :=
  { simulateOk := true, feeDataGasPrice := .ok (some 10000000000),
    gasEstimate := .ok 50000, transactionCountPending := 7,
    relayerAddress := addrRelayer, flashbotsResult := .ok "0xfb",
    signResult := .ok "0xsigned", broadcastResult := .ok "0xhash1",
    waitResult := .ok (some 21000), persistResult := .ok (), trackResult := .ok () }

/-- Fresh backend state: no cursor, no counters, empty tables. -/
def stFix : BackendState :=
  { nonceCursor := none, counters := countersFix, transactions := [],
    pendingTx := [], metricsTx := [] }

/-- A wall-clock instant in milliseconds. -/
def nowFix : Nat := 1700000000000

/-- The happy-path run. -/
def runFix : RelayResult × BackendState × List PipelineEv :=
  relayTransaction cfgFix networksFix rulesEmpty recoverA nowFix chainFix stFix requestFix

/-- Oracles identical to chainFix except that the database insert fails. -/
def chainPersistFail : ChainOracle :=
  { chainFix with persistResult := .error "database insert failed" }

/-- The run whose persistence step fails. -/
def runPersistFail : RelayResult × BackendState × List PipelineEv :=
  relayTransaction cfgFix networksFix rulesEmpty recoverA nowFix chainPersistFail stFix requestFix

/-- Configuration whose maxGasPrice (50 wei) sits far below any fee
suggestion. -/
def cfgLowCap : RelayerConfig := { cfgFix with maxGasPrice := "50" }

/-- Oracles whose fee suggestion (100 wei) exceeds the low cap. -/
def chainHighFee : ChainOracle := { chainFix with feeDataGasPrice := .ok (some 100) }

/-- The run in which the fee clamp pushes the price below the suggestion. -/
def runLowCap : RelayResult × BackendState × List PipelineEv :=
  relayTransaction cfgLowCap networksFix rulesEmpty recoverA nowFix chainHighFee stFix requestFix

/-- Oracles whose raw gas estimate (200000) exceeds the declared request
gas (100000). -/
def chainBigEstimate : ChainOracle := { chainFix with gasEstimate := .ok 200000 }

/-- The run whose estimate exceeds the declared gas limit. -/
def runBigEstimate : RelayResult × BackendState × List PipelineEv :=
  relayTransaction cfgFix networksFix rulesEmpty recoverA nowFix chainBigEstimate stFix requestFix

/-- A quota rule with an hourly value limit of 100 wei. -/
def quotaRule100 : QuotaRule :=
  { maxTransactionsPerHour := 10, maxTransactionsPerDay := 100,
    maxValuePerTransaction := "1000", maxValuePerHour := "100",
    maxValuePerDay := "1000" }

/-- The request of requestFix moving 1 wei. -/
def requestValue1 : MetaTransactionRequest := { requestFix with value := "1" }

/-- Rule set holding only the global quota rule quotaRule100. -/
def rulesQuota100 : PolicyRules := { rulesEmpty with quotaRules := [("*", quotaRule100)] }

/-- A quota rule whose per-transaction value limit is not a number, so
that its BigInt conversion throws during evaluation. -/
def quotaRuleBad : QuotaRule :=
  { maxTransactionsPerHour := 10, maxTransactionsPerDay := 100,
    maxValuePerTransaction := "not-a-number", maxValuePerHour := "100",
    maxValuePerDay := "100" }

/-- Rule set holding only the malformed global quota rule. -/
def rulesBad : PolicyRules := { rulesEmpty with quotaRules := [("*", quotaRuleBad)] }

/-- Rule set in which the allowlist excludes addrA and the gas cap is
also violated by requestFix, exercising the evaluation order. -/
def rulesOrder : PolicyRules :=
  { rulesEmpty with
    allowlistRules := [("*", { addresses := [addrB] })],
    gasLimitRules := [("*", { maxGasLimit := "1", maxGasPrice := "100" })] }

/-- A record already in the terminal state confirmed. -/
def recordConfirmed : TransactionRecord :=
  { tx_hash := "0xhash1", from_address := addrA, to_address := addrB,
    network := "localhost", status := TxStatus.confirmed,
    gas_used := some "21000", gas_price := some "12000000000",
    block_number := some 100, relayer_address := some addrRelayer,
    token_address := none, token_type := none, amount := none, token_id := none }

/-- A quota rule allowing at most 2 transactions per hour. -/
def quotaRuleTight : QuotaRule :=
  { maxTransactionsPerHour := 2, maxTransactionsPerDay := 100,
    maxValuePerTransaction := "1000", maxValuePerHour := "1000",
    maxValuePerDay := "1000" }

/-- Rule set holding only the tight global quota rule. -/
def rulesQuotaTight : PolicyRules :=
  { rulesEmpty with quotaRules := [("*", quotaRuleTight)] }

/-- A healthy counter cache in which addrA already has three samples
inside the last hour on localhost. -/
def countersBusy : RedisCounters :=
  { txCount := [("tx_count:localhost:" ++ addrA,
      [nowFix - 1000, nowFix - 2000, nowFix - 3000])],
    failing := false }

/-- The same counter cache with the redis client rejecting its commands
(a counter-cache read error on every zRemRangeByScore / zCard call). -/
def countersBusyFailing : RedisCounters :=
  { countersBusy with failing := true }

/- ------------------------------------------------------------------ -/
/- Helper lemmas on the reason strings each policy checker can emit    -/
/- ------------------------------------------------------------------ -/

theorem checkAllowlist_reason_kinds (rules : PolicyRules)
    (request : MetaTransactionRequest) :
    (checkAllowlist rules request).allowed = true ∨
    (checkAllowlist rules request).reason = some "Address not in global allowlist" ∨
    (checkAllowlist rules request).reason =
      some ("Address not in " ++ request.network ++ " allowlist") := by
  simp only [checkAllowlist]
  repeat' split
  all_goals simp

theorem checkAddressQuota_reason_kinds (client : RedisCounters) (now : Nat)
    (address : String) (request : MetaTransactionRequest) (rule : QuotaRule)
    (r : PolicyResult) (h : checkAddressQuota client now address request rule = Except.ok r) :
    r.allowed = true ∨
    r.reason ∈ [some "Hourly transaction limit exceeded",
      some "Daily transaction limit exceeded",
      some "Transaction value exceeds limit",
      some "Hourly value limit would be exceeded",
      some "Daily value limit would be exceeded"] := by
  simp only [checkAddressQuota] at h
  repeat' split at h
  all_goals (try cases h)
  all_goals simp_all

theorem quotaRuleStep_reason_kinds (rules : PolicyRules) (client : RedisCounters)
    (now : Nat) (request : MetaTransactionRequest) (target : String) (r : PolicyResult)
    (h : quotaRuleStep rules client now request target = Except.ok r) :
    r.allowed = true ∨
    r.reason ∈ [some "Hourly transaction limit exceeded",
      some "Daily transaction limit exceeded",
      some "Transaction value exceeds limit",
      some "Hourly value limit would be exceeded",
      some "Daily value limit would be exceeded"] := by
  simp only [quotaRuleStep] at h
  split at h
  · exact checkAddressQuota_reason_kinds _ _ _ _ _ _ h
  · cases h; simp

theorem checkQuotas_reason_kinds (rules : PolicyRules) (client : RedisCounters)
    (now : Nat) (request : MetaTransactionRequest) (r : PolicyResult)
    (h : checkQuotas rules client now request = Except.ok r) :
    r.allowed = true ∨
    r.reason ∈ [some "Hourly transaction limit exceeded",
      some "Daily transaction limit exceeded",
      some "Transaction value exceeds limit",
      some "Hourly value limit would be exceeded",
      some "Daily value limit would be exceeded"] := by
  simp only [checkQuotas] at h
  cases hg : quotaRuleStep rules client now request "*" with
  | error e => rw [hg] at h; cases h
  | ok globalRes =>
    rw [hg] at h
    cases hga : globalRes.allowed
    · simp [hga] at h
      subst h; exact quotaRuleStep_reason_kinds _ _ _ _ _ _ hg
    · simp [hga] at h
      cases ha : quotaRuleStep rules client now request (strLower request.fromAddr) with
      | error e => rw [ha] at h; cases h
      | ok addressRes =>
        rw [ha] at h
        cases haa : addressRes.allowed
        · simp [haa] at h
          subst h; exact quotaRuleStep_reason_kinds _ _ _ _ _ _ ha
        · simp [haa] at h
          subst h; simp

theorem checkGasLimitRule_reason (request : MetaTransactionRequest)
    (rule : GasLimitRule) (reason : String) (o : PolicyResult)
    (h : checkGasLimitRule request rule reason = Except.ok (some o)) :
    o = { allowed := false, reason := some reason } := by
  simp only [checkGasLimitRule] at h
  repeat' split at h
  all_goals (try cases h)
  all_goals simp_all

theorem gasRuleStep_reason (rules : PolicyRules) (request : MetaTransactionRequest)
    (target reason : String) (o : PolicyResult)
    (h : gasRuleStep rules request target reason = Except.ok (some o)) :
    o = { allowed := false, reason := some reason } := by
  simp only [gasRuleStep] at h
  split at h
  · exact checkGasLimitRule_reason _ _ _ _ h
  · simp at h

theorem checkGasLimits_reason_kinds (rules : PolicyRules)
    (request : MetaTransactionRequest) (r : PolicyResult)
    (h : checkGasLimits rules request = Except.ok r) :
    r.allowed = true ∨
    r.reason = some "Gas limit exceeds maximum allowed" ∨
    r.reason = some ("Gas limit exceeds " ++ request.network ++ " maximum") := by
  simp only [checkGasLimits] at h
  cases hg : gasRuleStep rules request "*" "Gas limit exceeds maximum allowed" with
  | error e => simp [hg] at h
  | ok og =>
    cases og with
    | some rejection =>
      have hrej := gasRuleStep_reason _ _ _ _ _ hg
      simp [hg] at h
      subst h; rw [hrej]; simp
    | none =>
      simp [hg] at h
      cases hn : gasRuleStep rules request request.network
          ("Gas limit exceeds " ++ request.network ++ " maximum") with
      | error e => simp [hn] at h
      | ok onet =>
        cases onet with
        | some rejection =>
          have hrej := gasRuleStep_reason _ _ _ _ _ hn
          simp [hn] at h
          subst h; rw [hrej]; simp
        | none =>
          simp [hn] at h
          subst h; simp

theorem tokenCapStep_reason (priorAmount txAmount : Nat) (entry : Option String)
    (reason : String) (o : PolicyResult)
    (h : tokenCapStep priorAmount txAmount entry reason = Except.ok (some o)) :
    o = { allowed := false, reason := some reason } := by
  simp only [tokenCapStep] at h
  repeat' split at h
  all_goals (try cases h)
  all_goals simp_all

theorem checkTokenAmountLimits_reason_kinds (address tokenAddress amount network : String)
    (rule : TokenLimitRule) (r : PolicyResult)
    (h : checkTokenAmountLimits address tokenAddress amount network rule = Except.ok r) :
    r.allowed = true ∨
    r.reason ∈ [some "Token amount exceeds per-transaction limit",
      some "Token hourly limit would be exceeded",
      some "Token daily limit would be exceeded"] := by
  simp only [checkTokenAmountLimits] at h
  cases hp : parseBigInt amount with
  | error e => simp [hp] at h
  | ok txAmount =>
    simp only [hp] at h
    cases h1 : tokenCapStep 0 txAmount (lookupStr rule.maxAmountPerTransaction tokenAddress)
        "Token amount exceeds per-transaction limit" with
    | error e => simp [h1] at h
    | ok o1 =>
      cases o1 with
      | some rejection =>
        have hrej := tokenCapStep_reason _ _ _ _ _ h1
        simp [h1] at h
        subst h; rw [hrej]; simp
      | none =>
        simp only [h1] at h
        cases h2 : tokenCapStep
            (getTokenTransactionAmount address tokenAddress network oneHourMs) txAmount
            (lookupStr rule.maxAmountPerHour tokenAddress)
            "Token hourly limit would be exceeded" with
        | error e => simp [h2] at h
        | ok o2 =>
          cases o2 with
          | some rejection =>
            have hrej := tokenCapStep_reason _ _ _ _ _ h2
            simp [h2] at h
            subst h; rw [hrej]; simp
          | none =>
            simp only [h2] at h
            cases h3 : tokenCapStep
                (getTokenTransactionAmount address tokenAddress network oneDayMs) txAmount
                (lookupStr rule.maxAmountPerDay tokenAddress)
                "Token daily limit would be exceeded" with
            | error e => simp [h3] at h
            | ok o3 =>
              cases o3 with
              | some rejection =>
                have hrej := tokenCapStep_reason _ _ _ _ _ h3
                simp [h3] at h
                subst h; rw [hrej]; simp
              | none =>
                simp [h3] at h
                subst h; simp

theorem checkTokenLimits_reason_kinds (rules : PolicyRules)
    (request : MetaTransactionRequest) (r : PolicyResult)
    (h : checkTokenLimits rules request = Except.ok r) :
    r.allowed = true ∨
    r.reason ∈ [some "Token not in allowed list",
      some "Token amount exceeds per-transaction limit",
      some "Token hourly limit would be exceeded",
      some "Token daily limit would be exceeded"] := by
  simp only [checkTokenLimits] at h
  cases hta : request.tokenAddress with
  | none => simp [hta] at h; subst h; simp
  | some ta =>
    cases ham : request.amount with
    | none => simp [hta, ham] at h; subst h; simp
    | some am =>
      simp only [hta, ham] at h
      by_cases hemp : (strIsEmpty ta || strIsEmpty am) = true
      · simp [hemp] at h; subst h; simp
      · simp only [hemp, if_false, Bool.not_eq_true] at h
        cases hrule : lookupStr rules.tokenLimitRules "*" with
        | none => simp [hrule] at h; subst h; simp
        | some rule =>
          simp only [hrule] at h
          by_cases hallow : (rule.allowedTokens.length > 0 &&
              !(rule.allowedTokens.any (fun a => strLower a == strLower ta))) = true
          · simp [hallow] at h; subst h; simp
          · simp only [hallow, if_false, Bool.not_eq_true] at h
            cases hamounts : checkTokenAmountLimits request.fromAddr (strLower ta) am
                request.network rule with
            | error e => simp [hamounts] at h
            | ok amountRes =>
              have hk := checkTokenAmountLimits_reason_kinds _ _ _ _ _ _ hamounts
              cases haa : amountRes.allowed
              · simp [hamounts, haa] at h
                subst h
                rcases (by simpa [haa] using hk : amountRes.reason =
                    some "Token amount exceeds per-transaction limit" ∨
                    amountRes.reason = some "Token hourly limit would be exceeded" ∨
                    amountRes.reason = some "Token daily limit would be exceeded")
                  with h1 | h1 | h1 <;> simp [h1]
              · simp [hamounts, haa] at h
                subst h; simp

/- ------------------------------------------------------------------ -/
/- Claim theorems                                                      -/
/- ------------------------------------------------------------------ -/

/-- C1: the nonce allocator is claimed to hand out strictly increasing,
duplicate-free sequence numbers, with acquire initialising the cursor from
the on-chain pending count and otherwise atomically incrementing it.  The
source initialisation path stores the fetched pending count as the cursor
and returns that same count without consuming it, so the next acquisition
returns it again: starting uninitialised with on-chain pending count 5,
two acquisitions both return 5 (and a third returns 6), violating the
claimed uniqueness. -/
theorem nonce_allocator_duplicate_on_init :
    allocateNonces 5 2 none = [5, 5] ∧ ¬ (allocateNonces 5 2 none).Nodup ∧
    allocateNonces 5 3 none = [5, 5, 6] := by decide

/-- C2 counterexample: in the fully successful concrete run runFix both
the broadcast and the persistence happen, and the broadcast call is
issued strictly before the pending record is persisted — the claim that
the pending record is persisted before the broadcast call is false on the
code. -/
theorem relay_broadcast_before_persist :
    PipelineEv.persistRecord ∈ runFix.2.2 ∧
    PipelineEv.broadcastTx ∈ runFix.2.2 ∧
    runFix.2.2.indexOf PipelineEv.broadcastTx <
      runFix.2.2.indexOf PipelineEv.persistRecord ∧
    ¬ (runFix.2.2.indexOf PipelineEv.persistRecord <
      runFix.2.2.indexOf PipelineEv.broadcastTx) ∧
    runFix.1.success = true := by decide

/-- C2 amended: in every pipeline run the pending record is persisted
only after the broadcast call (plain or flashbots) has been issued, and
when persistence fails the run returns a failed RelayResult carrying the
thrown persistence error (there is no persist-failed code), while the
nonce cursor keeps the value the acquisition advanced it to — the
sequence number is not released. -/
theorem relay_persist_after_broadcast (cfg : RelayerConfig)
    (networks : List (String × NetworkConfig)) (rules : PolicyRules)
    (recover : RecoverOracle) (now : Nat) (chain : ChainOracle)
    (st : BackendState) (request : MetaTransactionRequest) :
    (PipelineEv.persistRecord ∈
        (relayTransaction cfg networks rules recover now chain st request).2.2 →
      ((PipelineEv.broadcastTx ∈
          (relayTransaction cfg networks rules recover now chain st request).2.2 ∧
        (relayTransaction cfg networks rules recover now chain st request).2.2.indexOf
            PipelineEv.broadcastTx <
          (relayTransaction cfg networks rules recover now chain st request).2.2.indexOf
            PipelineEv.persistRecord) ∨
       (PipelineEv.flashbotsSend ∈
          (relayTransaction cfg networks rules recover now chain st request).2.2 ∧
        (relayTransaction cfg networks rules recover now chain st request).2.2.indexOf
            PipelineEv.flashbotsSend <
          (relayTransaction cfg networks rules recover now chain st request).2.2.indexOf
            PipelineEv.persistRecord))) ∧
    (∀ e, chain.persistResult = Except.error e →
      PipelineEv.persistRecord ∈
        (relayTransaction cfg networks rules recover now chain st request).2.2 →
      (relayTransaction cfg networks rules recover now chain st request).1 =
        failResult e ∧
      ((relayTransaction cfg networks rules recover now chain st request).2.1).nonceCursor =
        (RelayerService.getNextNonce chain.transactionCountPending st.nonceCursor).2) := by
  simp only [relayTransaction, finishRelay, recordTxMetrics]
  repeat' split
  all_goals refine ⟨fun hp => ?_, fun e he hp => ?_⟩
  all_goals first
    | exact absurd hp (by decide)
    | decide
    | simp_all

/-- C2 witness: the amended ordering, failure result and unreleased nonce
cursor instantiated at the concrete run whose database insert fails (the
cursor stays at the advanced value: some 7, past the allocated nonce 7
fetched from the on-chain pending count). -/
theorem relay_persist_after_broadcast_witness :
    ((PipelineEv.broadcastTx ∈ runPersistFail.2.2 ∧
      runPersistFail.2.2.indexOf PipelineEv.broadcastTx <
        runPersistFail.2.2.indexOf PipelineEv.persistRecord) ∨
     (PipelineEv.flashbotsSend ∈ runPersistFail.2.2 ∧
      runPersistFail.2.2.indexOf PipelineEv.flashbotsSend <
        runPersistFail.2.2.indexOf PipelineEv.persistRecord)) ∧
    runPersistFail.1 = failResult "database insert failed" ∧
    runPersistFail.2.1.nonceCursor =
      (RelayerService.getNextNonce chainPersistFail.transactionCountPending
        stFix.nonceCursor).2 ∧
    runPersistFail.2.1.nonceCursor = some 7 := by
  have h := relay_persist_after_broadcast cfgFix networksFix rulesEmpty recoverA nowFix
    chainPersistFail stFix requestFix
  have h2 := h.2 "database insert failed" (by decide) (by decide)
  exact ⟨h.1 (by decide), h2.1, h2.2, by decide⟩

/-- C3: the verifier builds the EIP-712 domain (name "MinimalForwarder",
version "0.0.1", the network chain id, the network forwarder contract)
over the tuple (from, to, value, gas, nonce, data), and accepts exactly
when the recovered signer equals the request sender case-insensitively;
every other outcome is the single invalid-signature error. -/
theorem verify_signature_correct (networks : List (String × NetworkConfig))
    (recover : RecoverOracle) (request : MetaTransactionRequest)
    (networkConfig : NetworkConfig)
    (h : lookupStr networks request.network = some networkConfig) :
    (metaTxDomain networkConfig).name = "MinimalForwarder" ∧
    (metaTxDomain networkConfig).version = "0.0.1" ∧
    (metaTxDomain networkConfig).chainId = networkConfig.chainId ∧
    (metaTxDomain networkConfig).verifyingContract = networkConfig.contracts.forwarder ∧
    (verifyMetaTransactionSignature networks recover request = Except.ok () ↔
      strLower (recover (metaTxDomain networkConfig) (forwardRequestMessage request)
        request.signature) = strLower request.fromAddr) ∧
    (verifyMetaTransactionSignature networks recover request = Except.ok () ∨
      verifyMetaTransactionSignature networks recover request =
        Except.error "Invalid meta-transaction signature") := by
  refine ⟨rfl, rfl, rfl, rfl, ?_, ?_⟩
  · simp only [verifyMetaTransactionSignature, h]
    split
    case isTrue hb => simp only [beq_iff_eq] at hb; exact iff_of_true rfl hb
    case isFalse hb =>
      simp only [beq_iff_eq] at hb
      exact iff_of_false (by simp) hb
  · simp only [verifyMetaTransactionSignature, h]
    split
    · exact Or.inl rfl
    · exact Or.inr rfl

/-- C3 witness: the verification equivalence instantiated on the concrete
localhost deployment with a recovery oracle yielding the sender. -/
theorem verify_signature_correct_witness :
    lookupStr networksFix requestFix.network = some localhostConfig ∧
    (verifyMetaTransactionSignature networksFix recoverA requestFix = Except.ok () ↔
      strLower (recoverA (metaTxDomain localhostConfig)
        (forwardRequestMessage requestFix) requestFix.signature) =
        strLower requestFix.fromAddr) := by
  have h := verify_signature_correct networksFix recoverA requestFix localhostConfig
    (by decide)
  exact ⟨by decide, h.2.2.2.2.1⟩

/-- C4: the claim (with the spec) requires the quota evaluation to read
the actual hour and day value sums from the counter cache and reject when
a projected sum exceeds its limit; the source getTransactionValue is a
placeholder returning 0, so with an hourly value limit of 100, an actual
hourly sum of 100 and a request of value 1 the source admits while the
spec projection 100 + 1 > 100 rejects. -/
theorem quota_value_sums_placeholder :
    (∀ address network window, getTransactionValue address network window = 0) ∧
    checkAddressQuota countersFix nowFix (strLower addrA) requestValue1 quotaRule100 =
      Except.ok { allowed := true, reason := none } ∧
    checkPolicies rulesQuota100 countersFix nowFix requestValue1 =
      { allowed := true, reason := none } ∧
    quotaProjectionAllows 0 0 100 100 1 10 100 1000 100 1000 = false := by
  refine ⟨fun a n w => rfl, by decide, by decide, by decide⟩

/-- C5: the claim requires the pipeline to record counter-cache samples
(count, value, token amount) keyed on the sender at broadcast success;
the source never writes the tx_count sorted sets the policy engine reads:
in every run, whatever the oracles and the initial state, the counter
cache is returned unchanged. -/
theorem relay_counters_never_recorded (cfg : RelayerConfig)
    (networks : List (String × NetworkConfig)) (rules : PolicyRules)
    (recover : RecoverOracle) (now : Nat) (chain : ChainOracle)
    (st : BackendState) (request : MetaTransactionRequest) :
    ((relayTransaction cfg networks rules recover now chain st request).2.1).counters
      = st.counters := by
  simp only [relayTransaction, finishRelay, recordTxMetrics]
  repeat' split
  all_goals rfl

/-- C6 counterexample: the store update is claimed to be guarded so that
only records currently in pending can change status; updateTransaction
applied to a record already in the terminal state confirmed nevertheless
rewrites its status, so the guard does not exist. -/
theorem update_terminal_record :
    updateTransaction [recordConfirmed] "0xhash1"
        { status := some TxStatus.failed, gas_used := none, block_number := none } =
      [{ recordConfirmed with status := TxStatus.failed }] ∧
    recordConfirmed.status = TxStatus.confirmed := by decide

/-- C6 amended: updateTransaction applies the requested column updates to
every row whose tx_hash matches, regardless of the current status (records
in terminal states included), leaves non-matching rows unchanged, and the
status domain of the record type is exactly pending, confirmed, failed —
there is no dropped state. -/
theorem updateTransaction_unguarded (db : List TransactionRecord) (txHash : String)
    (updates : TransactionUpdates) (r : TransactionRecord)
    (hr : r ∈ db) (hh : r.tx_hash = txHash) :
    applyUpdates updates r ∈ updateTransaction db txHash updates ∧
    (∀ s : TransactionRecord, s ∈ db → s.tx_hash ≠ txHash →
      s ∈ updateTransaction db txHash updates) ∧
    (∀ st : TxStatus,
      st = TxStatus.pending ∨ st = TxStatus.confirmed ∨ st = TxStatus.failed) := by
  refine ⟨?_, ?_, ?_⟩
  · unfold updateTransaction
    have hf : (fun record => if record.tx_hash == txHash
        then applyUpdates updates record else record) r = applyUpdates updates r := by
      simp [hh]
    exact hf ▸ List.mem_map_of_mem _ hr
  · intro s hs hne
    unfold updateTransaction
    have hf : (fun record => if record.tx_hash == txHash
        then applyUpdates updates record else record) s = s := by
      simp [hne]
    exact hf ▸ List.mem_map_of_mem _ hs
  · intro st; cases st
    · exact Or.inl rfl
    · exact Or.inr (Or.inl rfl)
    · exact Or.inr (Or.inr rfl)

/-- C6 witness: the unguarded update instantiated on the confirmed
record. -/
theorem updateTransaction_unguarded_witness :
    recordConfirmed ∈ [recordConfirmed] ∧
    applyUpdates { status := some TxStatus.failed, gas_used := none, block_number := none }
        recordConfirmed ∈
      updateTransaction [recordConfirmed] "0xhash1"
        { status := some TxStatus.failed, gas_used := none, block_number := none } := by
  have h := updateTransaction_unguarded [recordConfirmed] "0xhash1"
    { status := some TxStatus.failed, gas_used := none, block_number := none }
    recordConfirmed (by decide) (by decide)
  exact ⟨by decide, h.1⟩

/-- C7: checkPolicies evaluates allowlist, then quota, then gas-cap, then
token-cap rules; whenever the fallible checks return results, the outcome
is exactly the first rejected result in that order (later checks do not
override it), and each possible rejection reason names its rule kind and
the violated limit. -/
theorem checkPolicies_first_rejection (rules : PolicyRules) (client : RedisCounters)
    (now : Nat) (request : MetaTransactionRequest) (q g t : PolicyResult)
    (hq : checkQuotas rules client now request = Except.ok q)
    (hg : checkGasLimits rules request = Except.ok g)
    (ht : checkTokenLimits rules request = Except.ok t) :
    checkPolicies rules client now request =
      firstRejection [checkAllowlist rules request, q, g, t] ∧
    ((checkAllowlist rules request).allowed = true ∨
      (checkAllowlist rules request).reason = some "Address not in global allowlist" ∨
      (checkAllowlist rules request).reason =
        some ("Address not in " ++ request.network ++ " allowlist")) ∧
    (q.allowed = true ∨
      q.reason ∈ [some "Hourly transaction limit exceeded",
        some "Daily transaction limit exceeded",
        some "Transaction value exceeds limit",
        some "Hourly value limit would be exceeded",
        some "Daily value limit would be exceeded"]) ∧
    (g.allowed = true ∨
      g.reason = some "Gas limit exceeds maximum allowed" ∨
      g.reason = some ("Gas limit exceeds " ++ request.network ++ " maximum")) ∧
    (t.allowed = true ∨
      t.reason ∈ [some "Token not in allowed list",
        some "Token amount exceeds per-transaction limit",
        some "Token hourly limit would be exceeded",
        some "Token daily limit would be exceeded"]) := by
  refine ⟨?_, checkAllowlist_reason_kinds rules request,
    checkQuotas_reason_kinds _ _ _ _ _ hq,
    checkGasLimits_reason_kinds _ _ _ hg,
    checkTokenLimits_reason_kinds _ _ _ ht⟩
  cases ha : (checkAllowlist rules request).allowed <;>
    cases hqa : q.allowed <;> cases hga : g.allowed <;> cases hta : t.allowed <;>
    simp [checkPolicies, checkPoliciesE, firstRejection, hq, hg, ht, ha, hqa, hga,
      hta, List.find?]

/-- C7 witness: with an allowlist excluding the sender and a gas cap the
request also violates, the engine reports the allowlist rejection — the
first rule kind in the order wins. -/
theorem checkPolicies_first_rejection_witness :
    checkPolicies rulesOrder countersFix nowFix requestFix =
      { allowed := false, reason := some "Address not in global allowlist" } := by
  have h := checkPolicies_first_rejection rulesOrder countersFix nowFix requestFix
    { allowed := true, reason := none }
    { allowed := false, reason := some "Gas limit exceeds maximum allowed" }
    { allowed := true, reason := none } (by decide) (by decide) (by decide)
  rw [h.1]; decide

/-- C8 counterexample: with a fee suggestion of 100 wei, multiplier 1.2
and a configured cap of 50 wei, the clamp pushes the effective fee (50)
below the suggestion minimum (100); the claimed fee-cap-too-low rejection
does not happen — the run broadcasts successfully at the clamped fee. -/
theorem fee_clamp_no_rejection :
    getOptimalGasPrice cfgLowCap (Except.ok (some 100)) = 50 ∧
    (50 : Nat) < 100 ∧
    runLowCap.1.success = true ∧ runLowCap.1.error = none ∧
    runLowCap.1.gasPrice = some "50" ∧
    PipelineEv.broadcastTx ∈ runLowCap.2.2 := by decide

/-- C8 amended: the effective fee is the suggestion (null coalesced to 0)
times floor(100 · multiplier) over 100, clamped down to the configured
maxGasPrice (min of the two); a failed fee query falls back to 20 gwei,
and no rejection is raised when the clamp falls below the suggestion. -/
theorem getOptimalGasPrice_clamp (cfg : RelayerConfig) (fee : Option Nat) (m : Nat)
    (h : parseBigInt cfg.maxGasPrice = Except.ok m) :
    getOptimalGasPrice cfg (Except.ok fee) =
      min ((fee.getD 0) * cfg.gasMultiplier100 / 100) m ∧
    (∀ u : Unit, getOptimalGasPrice cfg (Except.error u) = 20000000000) := by
  constructor
  · simp only [getOptimalGasPrice, h]
    split
    · omega
    · omega
  · intro u; rfl

/-- C8 witness: the clamp formula instantiated on the default
configuration (cap 100 gwei) and a 10 gwei suggestion. -/
theorem getOptimalGasPrice_clamp_witness :
    parseBigInt cfgFix.maxGasPrice = Except.ok 100000000000 ∧
    getOptimalGasPrice cfgFix (Except.ok (some 10000000000)) =
      min (10000000000 * 120 / 100) 100000000000 := by
  have h := getOptimalGasPrice_clamp cfgFix (some 10000000000) 100000000000 (by decide)
  exact ⟨by decide, h.1⟩

/-- C9 counterexample: with a raw estimate of 200000 against a declared
gas of 100000 the claimed gas-limit-too-low rejection does not occur: the
estimate is buffered to 240000, never clamped to the declared gas, and
the run broadcasts successfully. -/
theorem gas_estimate_unclamped :
    estimateGas requestFix (Except.ok 200000) = Except.ok 240000 ∧
    parseBigInt requestFix.gas = Except.ok 100000 ∧
    (200000 : Nat) > 100000 ∧ (240000 : Nat) > 100000 ∧
    runBigEstimate.1.success = true ∧ runBigEstimate.1.error = none := by decide

/-- C9 amended: the gas limit used for submission is the raw estimate
plus a 20 percent buffer with no clamp to the declared request gas and no
gas-limit-too-low rejection; a failed estimation falls back to the
declared gas. -/
theorem estimateGas_headroom (request : MetaTransactionRequest) (e g : Nat)
    (h : parseBigInt request.gas = Except.ok g) :
    estimateGas request (Except.ok e) = Except.ok (e * 120 / 100) ∧
    estimateGas request (Except.error ()) = Except.ok g := by
  exact ⟨rfl, h⟩

/-- C9 witness: the headroom formula instantiated on the concrete
request. -/
theorem estimateGas_headroom_witness :
    parseBigInt requestFix.gas = Except.ok 100000 ∧
    estimateGas requestFix (Except.ok 50000) = Except.ok (50000 * 120 / 100) ∧
    estimateGas requestFix (Except.error ()) = Except.ok 100000 := by
  have h := estimateGas_headroom requestFix 50000 100000 (by decide)
  exact ⟨by decide, h.1, h.2⟩

/-- C10 counterexample: the claim names a counter-cache read error as an
exception that makes checkPolicies reject with "Policy check failed"; in
the source such an error is caught inside getTransactionCount and turned
into a count of 0, after which evaluation continues — with a rejecting
redis client and a tight hourly quota the healthy cache rejects for the
three recent samples while the failing cache ADMITS the request, the
opposite of the claimed fail-closed rejection. -/
theorem counter_read_error_admits :
    countersBusyFailing.failing = true ∧
    getTransactionCount countersBusyFailing addrA "localhost" oneHourMs nowFix = 0 ∧
    getTransactionCount countersBusy addrA "localhost" oneHourMs nowFix = 3 ∧
    checkPolicies rulesQuotaTight countersBusy nowFix requestFix =
      { allowed := false, reason := some "Hourly transaction limit exceeded" } ∧
    checkPolicies rulesQuotaTight countersBusyFailing nowFix requestFix =
      { allowed := true, reason := none } := by decide

/-- C10 amended: the policy engine fails closed only for exceptions that
reach the try-block of checkPolicies (for example a malformed rule value
failing its BigInt conversion): those yield a rejection with reason
"Policy check failed" instead of admitting or propagating, and normal
results are passed through unmodified — but counter-cache read errors
never reach it: getTransactionCount catches them and returns a count of
0, so a request evaluated under a failing counter cache can be admitted. -/
theorem checkPolicies_fail_closed (rules : PolicyRules) (client : RedisCounters)
    (now : Nat) (request : MetaTransactionRequest) :
    (∀ e, checkPoliciesE rules client now request = Except.error e →
      checkPolicies rules client now request =
        { allowed := false, reason := some "Policy check failed" }) ∧
    (∀ r, checkPoliciesE rules client now request = Except.ok r →
      checkPolicies rules client now request = r) ∧
    (client.failing = true →
      ∀ address network timeWindowMs now2,
        getTransactionCount client address network timeWindowMs now2 = 0) := by
  refine ⟨?_, ?_, ?_⟩
  · intro e he; unfold checkPolicies; rw [he]
  · intro r hr; unfold checkPolicies; rw [hr]
  · intro hf address network timeWindowMs now2
    simp [getTransactionCount, hf]

/-- C10 witness: a quota rule whose per-transaction value limit is not a
number makes the evaluation throw and the engine rejects with the
fail-closed reason; a failing counter-cache client yields a swallowed
count of 0 instead of an error. -/
theorem checkPolicies_fail_closed_witness :
    checkPoliciesE rulesBad countersFix nowFix requestFix =
      Except.error "Cannot convert not-a-number to a BigInt" ∧
    checkPolicies rulesBad countersFix nowFix requestFix =
      { allowed := false, reason := some "Policy check failed" } ∧
    getTransactionCount countersBusyFailing addrA "localhost" oneHourMs nowFix = 0 := by
  refine ⟨by decide, ?_, ?_⟩
  · exact (checkPolicies_fail_closed rulesBad countersFix nowFix requestFix).1
      "Cannot convert not-a-number to a BigInt" (by decide)
  · exact (checkPolicies_fail_closed rulesBad countersBusyFailing nowFix requestFix).2.2
      (by decide) addrA "localhost" oneHourMs nowFix
